import Mathlib

/-
Shallow Lean 4 embedding of the WebBluetooth GATT object model and discovery
layer of this repository (src/src/gatt.ts and the Bluetooth hub file), together
with theorems checking the specification claims against the embedded code.

Conventions of the embedding:
- byte buffers (Uint8Array / DataView / ArrayBuffer) are `List Nat`;
- a JavaScript `throw` is `Except.error`; `Promise.resolve(x)` is `Except.ok x`;
- `undefined` results from the binding are `Option.none`;
- the SimpleBLE binding is a stub record of the results it would return, and
  each embedded operation reports how many calls it makes into the binding;
- events dispatched with `dispatchEvent` are recorded, in dispatch order, as a
  list of (level, event-name) pairs, where level identifies which object in the
  Characteristic -> Service -> Device -> Hub chain received the dispatch.
-/

namespace WebBluetooth

/-- Byte buffers are lists of byte values. -/
abbrev Bytes := List Nat

instance {ε α : Type} [DecidableEq ε] [DecidableEq α] :
    DecidableEq (Except ε α) := fun a b =>
  match a, b with
  | Except.error e, Except.error f =>
    if h : e = f then isTrue (by rw [h])
    else isFalse (by intro hc; injection hc with h2; exact h h2)
  | Except.error _, Except.ok _ => isFalse (by intro hc; exact Except.noConfusion hc)
  | Except.ok _, Except.error _ => isFalse (by intro hc; exact Except.noConfusion hc)
  | Except.ok x, Except.ok y =>
    if h : x = y then isTrue (by rw [h])
    else isFalse (by intro hc; injection hc with h2; exact h h2)

/-- The error kinds thrown by the embedded operations, mirroring the `throw new
Error(...)` / `throw new TypeError(...)` sites of the source. -/
inductive GattError where
  /-- gatt.ts "Device not connected" -/
  | notConnected
  /-- gatt.ts "... is no longer valid" (stale native handle) -/
  | staleHandle
  /-- gatt.ts "Error while writing a command/request to a characteristic" -/
  | writeFailed
  /-- gatt.ts "Device already connected" -/
  | alreadyConnected
  /-- gatt.ts "Device refused to connect" -/
  | connectionRefused
  /-- gatt.ts / bluetooth hub lookup failures, with the source message -/
  | notFound (msg : String)
deriving DecidableEq

/-- Which object of the bubbling chain an event was dispatched on. -/
inductive EventLevel where
  | characteristic
  | service
  | device
  | hub
deriving DecidableEq

/-- One recorded `dispatchEvent` call: the receiving level and the event name. -/
structure EmittedEvent where
  level : EventLevel
  name : String
deriving DecidableEq

/-- JavaScript truthiness of an array value: an array object is always truthy,
so `!arr` evaluates to `false` no matter what the elements are.  The caches
`_services`, `_chars` and `_descriptors` in gatt.ts are initialized to `[]` and
are only ever assigned array values, so the guards `if (!this._services)` and
`if (!this._descriptors)` in the source test exactly this function. -/
def jsArrayFalsy (_xs : List α) : Bool := false

/-- ASCII lowercasing of one character (a kernel-computable `Char.toLower`). -/
def lowerChar (c : Char) : Char :=
  if 65 ≤ c.toNat ∧ c.toNat ≤ 90 then Char.ofNat (c.toNat + 32) else c

/-- Modelled from the spec: `getServiceUUID` from `common.ts` (that file is not
under `src/`).  Spec section 4.1: a pure normalizer mapping a UUID input to its
canonical lowercase string form.  UUID inputs are modelled as strings and
normalization as charwise ASCII lowercasing. -/
def getServiceUUID (u : String) : String := String.mk (u.data.map lowerChar)

/-- Modelled from the spec: `getCharacteristicUUID` from `common.ts` (not under
`src/`); same contract as `getServiceUUID`. -/
def getCharacteristicUUID (u : String) : String := String.mk (u.data.map lowerChar)

/-- Modelled from the spec: `getDescriptorUUID` from `common.ts` (not under
`src/`); same contract as `getServiceUUID`. -/
def getDescriptorUUID (u : String) : String := String.mk (u.data.map lowerChar)

/-- Stub of the SimpleBLE binding surface used by one characteristic and one of
its descriptors: the results the native calls would report. `none` models an
`undefined` buffer, `false` models a failed boolean call. -/
structure CharBindingStub where
  /-- result of `simpleble_peripheral_read` -/
  readResult : Option Bytes
  /-- result of `simpleble_peripheral_write_command` -/
  writeCommandOk : Bool
  /-- result of `simpleble_peripheral_write_request` -/
  writeRequestOk : Bool
  /-- result of `simpleble_peripheral_notify` -/
  notifyOk : Bool
  /-- result of `simpleble_peripheral_unsubscribe` -/
  unsubscribeOk : Bool
  /-- result of `simpleble_peripheral_read_descriptor` -/
  readDescriptorResult : Option Bytes
  /-- result of `simpleble_peripheral_write_descriptor` -/
  writeDescriptorOk : Bool
deriving DecidableEq

/-- Outcome of one characteristic/descriptor operation: the thrown-or-resolved
result, the `_value` field after the operation, the events dispatched during
the operation, and the number of calls made into the binding layer. -/
structure CharOpOut (α : Type) where
  result : Except GattError α
  value : Option Bytes
  events : List EmittedEvent
  bindingCalls : Nat
deriving DecidableEq

/-- `BluetoothRemoteGATTCharacteristic._setValue` (gatt.ts lines 300-309): when
`emit` is set it dispatches one `characteristicvaluechanged` event on the
characteristic, its service, its device, and the hub, in that order. -/
def setValueEvents (emit : Bool) : List EmittedEvent :=
  if emit then
    [⟨EventLevel.characteristic, "characteristicvaluechanged"⟩,
     ⟨EventLevel.service, "characteristicvaluechanged"⟩,
     ⟨EventLevel.device, "characteristicvaluechanged"⟩,
     ⟨EventLevel.hub, "characteristicvaluechanged"⟩]
  else []

/-- `BluetoothRemoteGATTCharacteristic.readValue` (gatt.ts lines 358-371).
The method has no connected-state guard: it calls
`simpleble_peripheral_read` unconditionally (hence the unused `_connected`
parameter), throws the stale-handle error if the binding reports no buffer,
and otherwise stores the view via `_setValue(view, true)`. -/
def characteristic_readValue (_connected : Bool) (b : CharBindingStub)
    (value0 : Option Bytes) : CharOpOut Bytes :=
  match b.readResult with
  | none => ⟨Except.error GattError.staleHandle, value0, [], 1⟩
  | some buf => ⟨Except.ok buf, some buf, setValueEvents true, 1⟩

/-- `BluetoothRemoteGATTCharacteristic.writeValueWithResponse` (gatt.ts lines
383-399).  No connected-state guard; calls `simpleble_peripheral_write_command`
unconditionally; on success stores the buffer via `_setValue(view, false)`. -/
def characteristic_writeValueWithResponse (_connected : Bool)
    (b : CharBindingStub) (value0 : Option Bytes) (data : Bytes) :
    CharOpOut Unit :=
  if b.writeCommandOk then
    ⟨Except.ok (), some data, setValueEvents false, 1⟩
  else
    ⟨Except.error GattError.writeFailed, value0, [], 1⟩

/-- `BluetoothRemoteGATTCharacteristic.writeValue` (gatt.ts lines 379-381): an
alias for `writeValueWithResponse`. -/
def characteristic_writeValue (connected : Bool) (b : CharBindingStub)
    (value0 : Option Bytes) (data : Bytes) : CharOpOut Unit :=
  characteristic_writeValueWithResponse connected b value0 data

/-- `BluetoothRemoteGATTCharacteristic.writeValueWithoutResponse` (gatt.ts
lines 401-417).  No connected-state guard; calls
`simpleble_peripheral_write_request`; on success `_setValue(view, false)`. -/
def characteristic_writeValueWithoutResponse (_connected : Bool)
    (b : CharBindingStub) (value0 : Option Bytes) (data : Bytes) :
    CharOpOut Unit :=
  if b.writeRequestOk then
    ⟨Except.ok (), some data, setValueEvents false, 1⟩
  else
    ⟨Except.error GattError.writeFailed, value0, [], 1⟩

/-- `BluetoothRemoteGATTCharacteristic.startNotifications` (gatt.ts lines
419-437): throws "Device not connected" before any binding call when the
server is not connected; otherwise registers the native subscription with
`simpleble_peripheral_notify` (its boolean result is ignored by the source). -/
def characteristic_startNotifications (connected : Bool) (_b : CharBindingStub)
    (value0 : Option Bytes) : CharOpOut Unit :=
  if !connected then
    ⟨Except.error GattError.notConnected, value0, [], 0⟩
  else
    ⟨Except.ok (), value0, [], 1⟩

/-- The callback registered by `startNotifications` (gatt.ts lines 428-433):
on each native delivery it dispatches a `notify` event on the characteristic
and then stores the delivered bytes via `_setValue(view, true)`. -/
def characteristic_notifyDelivery (value0 : Option Bytes) (data : Bytes) :
    CharOpOut Unit :=
  let _ := value0
  ⟨Except.ok (), some data,
    ⟨EventLevel.characteristic, "notify"⟩ :: setValueEvents true, 0⟩

/-- `BluetoothRemoteGATTCharacteristic.stopNotifications` (gatt.ts lines
439-450): throws "Device not connected" before any binding call when not
connected; otherwise calls `simpleble_peripheral_unsubscribe` (result
ignored). -/
def characteristic_stopNotifications (connected : Bool) (_b : CharBindingStub)
    (value0 : Option Bytes) : CharOpOut Unit :=
  if !connected then
    ⟨Except.error GattError.notConnected, value0, [], 0⟩
  else
    ⟨Except.ok (), value0, [], 1⟩

/-- `BluetoothRemoteGATTCharacteristic.getDescriptors` (gatt.ts lines 326-356):
throws "Device not connected" when not connected (no binding call); the lazy
population guard `if (!this._descriptors)` tests an array that is initialized
to `[]`, so it never fires (see `jsArrayFalsy`); without a UUID the current
cache is returned; with a UUID the cache is filtered and the call throws
unless the filtered list has exactly one element.  The method makes no calls
into the binding layer in any branch (descriptor UUIDs live on the
characteristic handle).  Returns (result, cache after the call, binding
calls). -/
def characteristic_getDescriptors (connected : Bool) (handleDescs : List String)
    (cache : List String) (uuid? : Option String) :
    Except GattError (List String) × List String × Nat :=
  if !connected then
    (Except.error GattError.notConnected, cache, 0)
  else
    let cache1 := if jsArrayFalsy cache then handleDescs else cache
    match uuid? with
    | none => (Except.ok cache1, cache1, 0)
    | some u =>
      let filtered := cache1.filter (fun d => d == getDescriptorUUID u)
      if filtered.length == 1 then (Except.ok filtered, cache1, 0)
      else
        (Except.error
          (GattError.notFound ("getDescriptors error: descriptor not found")),
         cache1, 0)

/-- `BluetoothRemoteGATTDescriptor.readValue` (gatt.ts lines 191-208): throws
"Device not connected" before any binding call when the owning server is not
connected; otherwise calls `simpleble_peripheral_read_descriptor`, throws the
stale-handle error on an `undefined` buffer, and stores the view in `_value`
(no event is dispatched). -/
def descriptor_readValue (connected : Bool) (b : CharBindingStub)
    (value0 : Option Bytes) : CharOpOut Bytes :=
  if !connected then
    ⟨Except.error GattError.notConnected, value0, [], 0⟩
  else
    match b.readDescriptorResult with
    | none => ⟨Except.error GattError.staleHandle, value0, [], 1⟩
    | some buf => ⟨Except.ok buf, some buf, [], 1⟩

/-- `BluetoothRemoteGATTDescriptor.writeValue` (gatt.ts lines 210-228): has no
connected-state guard; calls `simpleble_peripheral_write_descriptor`
unconditionally, throws the stale-handle error if it reports failure, and
stores the written buffer in `_value` (no event). -/
def descriptor_writeValue (_connected : Bool) (b : CharBindingStub)
    (value0 : Option Bytes) (data : Bytes) : CharOpOut Unit :=
  if b.writeDescriptorOk then
    ⟨Except.ok (), some data, [], 1⟩
  else
    ⟨Except.error GattError.staleHandle, value0, [], 1⟩

/-- A discovered service object: its UUID (the `_uuid` field of
`BluetoothRemoteGATTService`). -/
structure ServiceH where
  uuid : String
deriving DecidableEq

/-- The mutable state of a `BluetoothRemoteGATTServer`: the `_connected` flag
and the `_services` cache (always an array in the source). -/
structure ServerState where
  connected : Bool
  services : List ServiceH
deriving DecidableEq

/-- Outcome of `getPrimaryServices`: the result, the `_services` cache after
the call, and the number of service-enumeration calls made into the binding
(`simpleble_peripheral_services_count` / `_get`). -/
structure ServerOpOut where
  result : Except GattError (List ServiceH)
  services : List ServiceH
  bindingReads : Nat
deriving DecidableEq

/-- `BluetoothRemoteGATTServer.getPrimaryServices` (gatt.ts lines 745-774):
throws "Device not connected" when not connected; the population guard
`if (!this._services)` tests an array value (initialized `[]` by the
constructor and by `connect`), so it never fires and the binding enumeration
`enum` is never read; without a UUID the cache is returned as-is; with a UUID
the cache is filtered by normalized UUID and the call throws "Service not
found" unless exactly one service matches. -/
def server_getPrimaryServices (st : ServerState) (enum : List String)
    (uuid? : Option String) : ServerOpOut :=
  if !st.connected then
    ⟨Except.error GattError.notConnected, st.services, 0⟩
  else
    let pop :=
      if jsArrayFalsy st.services then
        (st.services ++ enum.map ServiceH.mk, enum.length + 1)
      else (st.services, 0)
    match uuid? with
    | none => ⟨Except.ok pop.1, pop.1, pop.2⟩
    | some u =>
      let filtered := pop.1.filter (fun s => s.uuid == getServiceUUID u)
      if filtered.length == 1 then ⟨Except.ok filtered, pop.1, pop.2⟩
      else ⟨Except.error (GattError.notFound ("Service not found")), pop.1, pop.2⟩

/-- Outcome of `BluetoothRemoteGATTServer.connect`: result, server state after
the call, events dispatched (in order), and whether the native on-disconnected
callback was registered. -/
structure ConnectOut where
  result : Except GattError Unit
  state : ServerState
  events : List EmittedEvent
  registeredDisconnectCb : Bool
deriving DecidableEq

/-- `BluetoothRemoteGATTServer.connect` (gatt.ts lines 698-714): throws
"Device already connected" if `connected` is already set; calls
`simpleble_peripheral_connect` and throws "Device refused to connect" if it
reports failure (the state is left untouched); on native success it resets the
`_services` cache to `[]`, sets `_connected = true`, dispatches a
`gattserverdisconnected` event on the device and then on the hub, and
registers the native on-disconnected callback. -/
def server_connect (st : ServerState) (nativeOk : Bool) : ConnectOut :=
  if st.connected then
    ⟨Except.error GattError.alreadyConnected, st, [], false⟩
  else if !nativeOk then
    ⟨Except.error GattError.connectionRefused, st, [], false⟩
  else
    ⟨Except.ok (), ⟨true, []⟩,
     [⟨EventLevel.device, "gattserverdisconnected"⟩,
      ⟨EventLevel.hub, "gattserverdisconnected"⟩], true⟩

/-- The native on-disconnected callback registered by `connect` (gatt.ts lines
710-712): it sets `_connected = false`. -/
def server_disconnectCallback (st : ServerState) : ServerState :=
  ⟨false, st.services⟩

/-- A characteristic handle as reported by the binding (`Characteristic` in
the SimpleBLE type declarations): its UUID and its descriptor UUIDs. -/
structure CharH where
  uuid : String
  descriptors : List String
deriving DecidableEq

/-- `BluetoothRemoteGATTService.getCharacteristics` (gatt.ts lines 538-566):
throws "Device not connected" when not connected; then — with no lazy guard at
all — appends a wrapper for every characteristic of the service handle to the
`_chars` cache (so each call grows the cache by the full handle list again);
without a UUID the grown cache is returned; with a UUID the grown cache is
filtered by normalized UUID and the call throws "Characteristic not found"
unless exactly one matches.  Returns (result, cache after the call). -/
def service_getCharacteristics (connected : Bool) (handleChars : List CharH)
    (cache : List CharH) (uuid? : Option String) :
    Except GattError (List CharH) × List CharH :=
  if !connected then
    (Except.error GattError.notConnected, cache)
  else
    let cache1 := cache ++ handleChars
    match uuid? with
    | none => (Except.ok cache1, cache1)
    | some u =>
      let filtered := cache1.filter (fun c => c.uuid == getCharacteristicUUID u)
      if filtered.length == 1 then (Except.ok filtered, cache1)
      else (Except.error (GattError.notFound ("Characteristic not found")), cache1)

/-- `BluetoothCharacteristicProperties` as returned by the `properties` getter,
with the fields in the order of the claim text. -/
structure BluetoothCharacteristicProperties where
  read : Bool
  write : Bool
  writeWithoutResponse : Bool
  notify : Bool
  indicate : Bool
  reliableWrite : Bool
  broadcast : Bool
  authenticatedSignedWrites : Bool
  writableAuxiliaries : Bool
deriving DecidableEq

/-- `BluetoothRemoteGATTCharacteristic.properties` (gatt.ts lines 270-283): a
getter that builds a fresh object of constant flags; it never consults the
native characteristic handle (the `CharH` argument is unused, mirroring that
`this._characteristic` is not read by the getter). -/
def characteristic_properties (_c : CharH) : BluetoothCharacteristicProperties :=
  ⟨true, true, true, true, true, true, false, false, false⟩

/-- A scan result as read back from the binding in the discovery loops: the
`simpleble_peripheral_identifier` string (named `id` as in the source), the
`simpleble_peripheral_address` string, and the enumerated manufacturer-data
entries (company id, bytes). -/
structure ScanResult where
  id : String
  address : String
  mdata : List (Nat × Bytes)
deriving DecidableEq

/-- A constructed `BluetoothDevice`, keeping the constructor parameter names of
gatt.ts (`id`, `name`).  Note that both the `_request` loop and the `scan`
loop call `new BluetoothDevice(bindings, d, address, id, this, mdata)`, so the
device's `id` field receives the address and its `name` field receives the
identifier. -/
structure DeviceM where
  id : String
  name : String
  manufacturerData : List (Nat × Bytes)
deriving DecidableEq

/-- The `RequestDeviceInfo` record passed to the filter predicate: the source
builds it as `{ name: id, address, manufacturerData }`. -/
structure RequestDeviceInfo where
  name : String
  address : String
  manufacturerData : List (Nat × Bytes)
deriving DecidableEq

/-- Device construction at the call sites of `_request` and `scan`:
`new BluetoothDevice(bindings, d, address, id, this, manufacturerData)`. -/
def mkDevice (r : ScanResult) : DeviceM := ⟨r.address, r.id, r.mdata⟩

/-- The filter-callback argument built in `_request` and `scan`:
`{ name: id, address, manufacturerData }`. -/
def infoOf (r : ScanResult) : RequestDeviceInfo := ⟨r.id, r.address, r.mdata⟩

/-- The result-processing loop of `Bluetooth._request` (hub source lines
321-353): walks the scan results in order, wraps each match in a device, and
— when `singleDevice` is set — `break`s after the first match. -/
def requestLoop (pred : RequestDeviceInfo → Bool) (singleDevice : Bool) :
    List ScanResult → List DeviceM
  | [] => []
  | r :: rest =>
    if pred (infoOf r) then
      if singleDevice then [mkDevice r]
      else mkDevice r :: requestLoop pred singleDevice rest
    else requestLoop pred singleDevice rest

/-- `Bluetooth.requestDevice` (hub source lines 366-383): runs
`_request(options, true)`, throws the no-devices error on an empty result, and
pushes the first device onto the `_devices` registry.  Returns the device and
the registry after the call. -/
def bluetooth_requestDevice (registry : List DeviceM)
    (results : List ScanResult) (pred : RequestDeviceInfo → Bool) :
    Except GattError (DeviceM × List DeviceM) :=
  match requestLoop pred true results with
  | [] => Except.error (GattError.notFound ("requestDevice error: no devices found"))
  | d :: _ => Except.ok (d, registry ++ [d])

/-- `Bluetooth.requestDevices` (hub source lines 391-408): the source also
calls `_request(options, true)` — with `singleDevice` set — then throws the
no-devices error on an empty result and pushes the returned devices onto the
`_devices` registry.  Returns the device list and the registry after the
call. -/
def bluetooth_requestDevices (registry : List DeviceM)
    (results : List ScanResult) (pred : RequestDeviceInfo → Bool) :
    Except GattError (List DeviceM × List DeviceM) :=
  match requestLoop pred true results with
  | [] => Except.error (GattError.notFound ("requestDevices error: no devices found"))
  | d :: ds => Except.ok (d :: ds, registry ++ d :: ds)

/-- The per-cycle body of `Bluetooth.scan` (hub source lines 249-282): walks
one cycle of scan results; a result whose identifier is already in `ids` is
skipped; a result accepted by the filter is yielded (as its identifier paired
with the constructed device) and its identifier is pushed onto `ids`.
Returns the `ids` list after the cycle and the yields of the cycle. -/
def scanCycle (pred : RequestDeviceInfo → Bool) :
    List String → List ScanResult → List String × List (String × DeviceM)
  | ids, [] => (ids, [])
  | ids, r :: rest =>
    if ids.contains r.id then scanCycle pred ids rest
    else if pred (infoOf r) then
      let out := scanCycle pred (ids ++ [r.id]) rest
      (out.1, (r.id, mkDevice r) :: out.2)
    else scanCycle pred ids rest

/-- A run of the `Bluetooth.scan` loop over a list of scan cycles (each cycle
being the results the binding reports for it), threading the `ids` list across
cycles exactly as the source keeps one `ids` array for the whole loop. -/
def scanRun (pred : RequestDeviceInfo → Bool) :
    List String → List (List ScanResult) → List String × List (String × DeviceM)
  | ids, [] => (ids, [])
  | ids, c :: rest =>
    let out1 := scanCycle pred ids c
    let out2 := scanRun pred out1.1 rest
    (out2.1, out1.2 ++ out2.2)

/-- The abort listener registered by `Bluetooth.scan` (hub source lines
236-238): its body is `done = false` — it assigns `false`, not `true`, to the
loop flag, whatever the flag held before. -/
def scanAbortListener (_done : Bool) : Bool := false

/-- The guard of the scan loop, `while (!done)` (hub source line 240). -/
def scanLoopCondition (done : Bool) : Bool := !done

/-- Fuel-bounded run of the scan loop head: counts how many further scan
cycles are started from a given `done` flag within `fuel` loop tests.  Each
iteration starts a cycle iff `scanLoopCondition` holds. -/
def scanLoopSteps : Nat → Bool → Nat
  | 0, _ => 0
  | fuel + 1, done =>
    if scanLoopCondition done then scanLoopSteps fuel done + 1 else 0

/-- A manufacturer-data filter entry `{companyIdentifier, dataPrefix?}`.  The
optional prefix field is called `dataPfx` here (`dataPrefix` in the source). -/
structure ManufacturerDataFilter where
  companyIdentifier : Nat
  dataPfx : Option Bytes
deriving DecidableEq

/-- A `BluetoothManufacturerData` map, as an association list from company
identifier to data bytes. -/
abbrev MDataMap := List (Nat × Bytes)

/-- `map.has(k)` on the manufacturer-data map. -/
def mapHas (m : MDataMap) (k : Nat) : Bool := m.any (fun e => e.1 == k)

/-- `map.get(k)` on the manufacturer-data map (`undefined` is `none`). -/
def mapGet (m : MDataMap) (k : Nat) : Option Bytes :=
  (m.find? (fun e => e.1 == k)).map (fun e => e.2)

/-- `DataView.getUint8(i)`: an out-of-range index throws a `RangeError`,
modelled as `none`. -/
def getUint8 (data : Bytes) (i : Nat) : Option Nat := data.get? i

/-- The per-entry comparison loop of `checkManufacturerData` (hub source lines
76-80): for each index `i` of the prefix bytes it computes
`values[i] = (view.getUint8(i) === b)` and finally conjoins all entries with
`every`.  An out-of-range `getUint8` throws, aborting the whole check
(`none`); a mere mismatch only makes the conjunction false. -/
def prefixByteLoop (view : Bytes) : Nat → Bytes → Option Bool
  | _, [] => some true
  | i, b :: rest =>
    match getUint8 view i with
    | none => none
    | some a =>
      match prefixByteLoop view (i + 1) rest with
      | none => none
      | some ok => some ((a == b) && ok)

/-- `checkManufacturerData` (hub source lines 54-87): scans the filter entries
in order; an entry whose company id is absent from the map is skipped; an
entry with no `dataPrefix` matches by presence alone; otherwise the data bytes
for the company are compared byte-by-byte against the prefix — returning
`true` on a full prefix match, skipping to the next entry on a mismatch, and
propagating the `RangeError` (`none`) of an out-of-range read; `false` when no
entry matched. -/
def checkManufacturerData (map : MDataMap) :
    List ManufacturerDataFilter → Option Bool
  | [] => some false
  | f :: rest =>
    if !(mapHas map f.companyIdentifier) then checkManufacturerData map rest
    else
      match f.dataPfx with
      | none => some true
      | some pfx =>
        match mapGet map f.companyIdentifier with
        | none => checkManufacturerData map rest
        | some view =>
          match prefixByteLoop view 0 pfx with
          | none => none
          | some true => some true
          | some false => checkManufacturerData map rest

/-- The manufacturer-data match as worded by the claim: some filter entry has
its company identifier present in the candidate's map and, when a data prefix
is given, every byte of the prefix equals the byte at the same offset of the
candidate's data for that company (so the prefix is a list prefix of the
data). -/
def specManufacturerMatch (map : MDataMap)
    (filters : List ManufacturerDataFilter) : Bool :=
  filters.any fun f =>
    mapHas map f.companyIdentifier &&
      match f.dataPfx, mapGet map f.companyIdentifier with
      | none, _ => true
      | some pfx, some view => pfx.isPrefixOf view
      | some _, none => false

/-- Side condition under which `checkManufacturerData` cannot hit an
out-of-range read: every given data prefix whose company id resolves in the
map is no longer than the resolved data. -/
def prefixesInBounds (map : MDataMap)
    (filters : List ManufacturerDataFilter) : Bool :=
  filters.all fun f =>
    match f.dataPfx, mapGet map f.companyIdentifier with
    | some pfx, some view => pfx.length ≤ view.length
    | _, _ => true

/-- C1: the claim is refuted by the code at a concrete input: with the server
disconnected (`connected = false`) and a binding stub that would answer the
calls, `BluetoothRemoteGATTCharacteristic.readValue` does not fail with the
not-connected error — it resolves with the read bytes after making one call
into the binding layer — and `writeValue` and
`BluetoothRemoteGATTDescriptor.writeValue` likewise resolve after a binding
call. -/
theorem disconnected_characteristic_readValue_reaches_binding :
    (characteristic_readValue false ⟨some [1], true, true, true, true, some [], true⟩ none).result
      = Except.ok [1] ∧
    (characteristic_readValue false ⟨some [1], true, true, true, true, some [], true⟩ none).bindingCalls
      = 1 ∧
    (characteristic_writeValue false ⟨some [1], true, true, true, true, some [], true⟩ none [2]).result
      = Except.ok () ∧
    (characteristic_writeValue false ⟨some [1], true, true, true, true, some [], true⟩ none [2]).bindingCalls
      = 1 ∧
    (descriptor_writeValue false ⟨some [1], true, true, true, true, some [], true⟩ none [3]).result
      = Except.ok () ∧
    (descriptor_writeValue false ⟨some [1], true, true, true, true, some [], true⟩ none [3]).bindingCalls
      = 1 := by
  decide

/-- C1 (amended): only the operations that carry an explicit guard —
`startNotifications`, `stopNotifications` and `getDescriptors` on a
Characteristic, and `readValue` on a Descriptor — fail with the not-connected
error and perform zero binding calls when `connected == false`;
`Characteristic.readValue`, the `writeValue` variants and
`Descriptor.writeValue` call the binding regardless of the flag. -/
theorem guarded_operations_fail_fast_when_disconnected (b : CharBindingStub)
    (v : Option Bytes) (descs cache : List String) (uuid? : Option String) :
    characteristic_startNotifications false b v
      = ⟨Except.error GattError.notConnected, v, [], 0⟩ ∧
    characteristic_stopNotifications false b v
      = ⟨Except.error GattError.notConnected, v, [], 0⟩ ∧
    characteristic_getDescriptors false descs cache uuid?
      = (Except.error GattError.notConnected, cache, 0) ∧
    descriptor_readValue false b v
      = ⟨Except.error GattError.notConnected, v, [], 0⟩ :=
  ⟨rfl, rfl, rfl, rfl⟩

/-- C2: the code contradicts the claim at a concrete input: on a freshly
connected server whose binding would enumerate one service, the first
`getPrimaryServices()` call performs zero binding enumeration reads and
returns the never-populated empty cache (the `if (!this._services)` guard
tests an array initialized to `[]`, which is always truthy in JavaScript);
and `getCharacteristics()` on a service appends the full handle list on every
call, so a second call duplicates the cached collection instead of reusing
it. -/
theorem service_cache_never_populated_and_characteristics_duplicated :
    (server_getPrimaryServices ⟨true, []⟩ ["0000180d"] none).result = Except.ok [] ∧
    (server_getPrimaryServices ⟨true, []⟩ ["0000180d"] none).bindingReads = 0 ∧
    (service_getCharacteristics true [⟨"2a37", []⟩] [] none).2 = [⟨"2a37", []⟩] ∧
    (service_getCharacteristics true [⟨"2a37", []⟩] [⟨"2a37", []⟩] none).2
      = [⟨"2a37", []⟩, ⟨"2a37", []⟩] := by
  decide

/-- C3: `connect()` fails if the server is already connected; if the native
connect call reports failure it fails with the connection-refused error and
the state (in particular `connected = false`) is untouched; on native success
it clears the service cache, sets `connected` to true, dispatches a
`gattserverdisconnected` event on the device and then on the hub immediately
after connecting, and registers the native disconnection callback, which sets
`connected` back to false when invoked. -/
theorem connect_state_machine (st : ServerState) (nativeOk : Bool) :
    (st.connected = true → server_connect st nativeOk
      = ⟨Except.error GattError.alreadyConnected, st, [], false⟩) ∧
    (st.connected = false → nativeOk = false → server_connect st nativeOk
      = ⟨Except.error GattError.connectionRefused, st, [], false⟩) ∧
    (st.connected = false → nativeOk = true →
      server_connect st nativeOk
        = ⟨Except.ok (), ⟨true, []⟩,
           [⟨EventLevel.device, "gattserverdisconnected"⟩,
            ⟨EventLevel.hub, "gattserverdisconnected"⟩], true⟩ ∧
      (server_disconnectCallback (server_connect st nativeOk).state).connected
        = false) := by
  refine ⟨fun h => ?_, fun h hn => ?_, fun h hn => ?_⟩
  · simp [server_connect, h]
  · simp [server_connect, h, hn]
  · simp [server_connect, server_disconnectCallback, h, hn]

/-- C3 witness: a disconnected server with a succeeding native call connects,
clears the cache, emits the two bubbled events and registers the callback. -/
theorem connect_state_machine_witness :
    server_connect ⟨false, [⟨"180d"⟩]⟩ true
      = ⟨Except.ok (), ⟨true, []⟩,
         [⟨EventLevel.device, "gattserverdisconnected"⟩,
          ⟨EventLevel.hub, "gattserverdisconnected"⟩], true⟩ :=
  ((connect_state_machine ⟨false, [⟨"180d"⟩]⟩ true).2.2 rfl rfl).1

/-- C4: the claim is refuted by the code at a concrete input: on a connected
server whose cache holds no matching service, the plural
`getPrimaryServices(uuid)` does not return the empty filtered subset — it
throws "Service not found". -/
theorem getPrimaryServices_plural_zero_matches_throws :
    (server_getPrimaryServices ⟨true, []⟩ [] (some "180d")).result
      = Except.error (GattError.notFound ("Service not found")) ∧
    (server_getPrimaryServices ⟨true, []⟩ [] (some "180d")).result
      ≠ Except.ok [] := by
  decide

/-- C4 (amended): on a connected server, the plural `getPrimaryServices` with
a UUID argument also requires exactly one match: it resolves with the
one-element filtered subset when exactly one cached service has the normalized
UUID, and throws "Service not found" when the filtered subset has zero or
several elements; only the call without a UUID returns the cache as a whole. -/
theorem getPrimaryServices_plural_requires_exactly_one (st : ServerState)
    (enum : List String) (u : String) (hc : st.connected = true) :
    ((st.services.filter (fun s => s.uuid == getServiceUUID u)).length = 1 →
      (server_getPrimaryServices st enum (some u)).result
        = Except.ok (st.services.filter (fun s => s.uuid == getServiceUUID u))) ∧
    ((st.services.filter (fun s => s.uuid == getServiceUUID u)).length ≠ 1 →
      (server_getPrimaryServices st enum (some u)).result
        = Except.error (GattError.notFound ("Service not found"))) := by
  constructor <;> intro h <;>
    simp [server_getPrimaryServices, hc, jsArrayFalsy, h]

/-- C4 witness: with exactly one matching cached service the plural lookup
resolves with the one-element subset. -/
theorem getPrimaryServices_plural_requires_exactly_one_witness :
    (server_getPrimaryServices ⟨true, [⟨"180d"⟩]⟩ [] (some "180d")).result
      = Except.ok [⟨"180d"⟩] :=
  ((getPrimaryServices_plural_requires_exactly_one ⟨true, [⟨"180d"⟩]⟩ []
      "180d" rfl).1 (by decide)).trans (by decide)

/-- C6: the code contradicts the claim at a concrete input: with two scan
results that both match the filter, the result loop run with
`singleDevice = false` would return both, but `requestDevices` calls
`_request(options, true)`, so it returns only the first match (and appends
only that one device to the registry). -/
theorem requestDevices_returns_single_match_eval :
    requestLoop (fun _ => true) false [⟨"A", "aa", []⟩, ⟨"B", "bb", []⟩]
      = [⟨"aa", "A", []⟩, ⟨"bb", "B", []⟩] ∧
    bluetooth_requestDevices [] [⟨"A", "aa", []⟩, ⟨"B", "bb", []⟩] (fun _ => true)
      = Except.ok ([⟨"aa", "A", []⟩], [⟨"aa", "A", []⟩]) ∧
    bluetooth_requestDevice [] [⟨"A", "aa", []⟩, ⟨"B", "bb", []⟩] (fun _ => true)
      = Except.ok (⟨"aa", "A", []⟩, [⟨"aa", "A", []⟩]) := by
  decide

/-- C8: the code contradicts the claim: the abort listener of the continuous
scan loop assigns `false` (not `true`) to the `done` flag, so after the
listener runs the `while (!done)` condition still holds and the loop starts a
further scan cycle on every iteration it is given — it never terminates on
cancellation. -/
theorem scan_abort_listener_never_stops_loop (d : Bool) (fuel : Nat) :
    scanAbortListener d = false ∧
    scanLoopCondition (scanAbortListener d) = true ∧
    scanLoopSteps fuel (scanAbortListener d) = fuel := by
  refine ⟨rfl, rfl, ?_⟩
  induction fuel with
  | zero => rfl
  | succ n ih => simp [scanLoopSteps, scanLoopCondition, scanAbortListener] at ih ⊢; exact ih

/-- C10: the `properties` getter returns the same constant flag set for every
characteristic, independent of the native characteristic handle: read, write,
writeWithoutResponse, notify, indicate and reliableWrite are true; broadcast,
authenticatedSignedWrites and writableAuxiliaries are false. -/
theorem characteristic_properties_constant (c c' : CharH) :
    characteristic_properties c = characteristic_properties c' ∧
    (characteristic_properties c).read = true ∧
    (characteristic_properties c).write = true ∧
    (characteristic_properties c).writeWithoutResponse = true ∧
    (characteristic_properties c).notify = true ∧
    (characteristic_properties c).indicate = true ∧
    (characteristic_properties c).reliableWrite = true ∧
    (characteristic_properties c).broadcast = false ∧
    (characteristic_properties c).authenticatedSignedWrites = false ∧
    (characteristic_properties c).writableAuxiliaries = false :=
  ⟨rfl, rfl, rfl, rfl, rfl, rfl, rfl, rfl, rfl, rfl⟩

/-- C5: a successful `writeValue` (and both explicit variants) stores the
written bytes in `value` and dispatches no `characteristicvaluechanged` event
at any level; a successful `readValue` and a native notification delivery
store the bytes and dispatch exactly one bubbled `characteristicvaluechanged`
event per level (characteristic, service, device, hub). -/
theorem value_update_and_event_emission (b : CharBindingStub) (v : Option Bytes)
    (data buf : Bytes) (c : Bool)
    (hw : b.writeCommandOk = true) (hr : b.writeRequestOk = true)
    (hb : b.readResult = some buf) :
    ((characteristic_writeValue c b v data).result = Except.ok () ∧
     (characteristic_writeValue c b v data).value = some data ∧
     (characteristic_writeValue c b v data).events.filter
       (fun e => e.name == "characteristicvaluechanged") = []) ∧
    ((characteristic_writeValueWithResponse c b v data).value = some data ∧
     (characteristic_writeValueWithResponse c b v data).events = []) ∧
    ((characteristic_writeValueWithoutResponse c b v data).result = Except.ok () ∧
     (characteristic_writeValueWithoutResponse c b v data).value = some data ∧
     (characteristic_writeValueWithoutResponse c b v data).events = []) ∧
    ((characteristic_readValue c b v).result = Except.ok buf ∧
     (characteristic_readValue c b v).value = some buf ∧
     ∀ l : EventLevel,
       ((characteristic_readValue c b v).events.filter
         (fun e => e.level == l && e.name == "characteristicvaluechanged")).length = 1) ∧
    ((characteristic_notifyDelivery v data).value = some data ∧
     ∀ l : EventLevel,
       ((characteristic_notifyDelivery v data).events.filter
         (fun e => e.level == l && e.name == "characteristicvaluechanged")).length = 1) := by
  have hev : (characteristic_readValue c b v).events = setValueEvents true := by
    simp [characteristic_readValue, hb]
  refine ⟨⟨?_, ?_, ?_⟩, ⟨?_, ?_⟩, ⟨?_, ?_, ?_⟩, ⟨?_, ?_, ?_⟩, ⟨?_, ?_⟩⟩ <;>
    first
      | (simp [characteristic_writeValue, characteristic_writeValueWithResponse,
               characteristic_writeValueWithoutResponse, characteristic_readValue,
               characteristic_notifyDelivery, setValueEvents, hw, hr, hb]
         done)
      | (simp only [characteristic_notifyDelivery]
         intro l
         cases l <;> decide)
      | (rw [hev]
         intro l
         cases l <;> decide)

/-- C5 witness: a concrete successful write emits no value-changed event while
updating the stored value, and a concrete read emits one event per level. -/
theorem value_update_and_event_emission_witness :
    (characteristic_writeValue true ⟨some [7], true, true, true, true, some [], true⟩
        none [1, 2]).value = some [1, 2] ∧
    (characteristic_writeValue true ⟨some [7], true, true, true, true, some [], true⟩
        none [1, 2]).events.filter
      (fun e => e.name == "characteristicvaluechanged") = [] :=
  ⟨(value_update_and_event_emission ⟨some [7], true, true, true, true, some [], true⟩
      none [1, 2] [7] true rfl rfl rfl).1.2.1,
   (value_update_and_event_emission ⟨some [7], true, true, true, true, some [], true⟩
      none [1, 2] [7] true rfl rfl rfl).1.2.2⟩

theorem scanCycle_invariant (pred : RequestDeviceInfo → Bool) :
    ∀ (results : List ScanResult) (ids : List String),
      (∀ x ∈ ids, x ∈ (scanCycle pred ids results).1) ∧
      (∀ y ∈ (scanCycle pred ids results).2,
        y.1 ∉ ids ∧ y.1 ∈ (scanCycle pred ids results).1) ∧
      ((scanCycle pred ids results).2.map Prod.fst).Nodup := by
  intro results
  induction results with
  | nil =>
    intro ids
    refine ⟨fun x hx => ?_, fun y hy => ?_, ?_⟩ <;> simp_all [scanCycle]
  | cons r rest ih =>
    intro ids
    have hunfold : scanCycle pred ids (r :: rest)
        = if ids.contains r.id then scanCycle pred ids rest
          else if pred (infoOf r) then
            ((scanCycle pred (ids ++ [r.id]) rest).1,
             (r.id, mkDevice r) :: (scanCycle pred (ids ++ [r.id]) rest).2)
          else scanCycle pred ids rest := rfl
    by_cases hc : ids.contains r.id = true
    · rw [hunfold, if_pos hc]
      exact ih ids
    · by_cases hp : pred (infoOf r) = true
      · rw [hunfold, if_neg hc, if_pos hp]
        obtain ⟨ih1, ih2, ih3⟩ := ih (ids ++ [r.id])
        have hrid : r.id ∉ ids := fun hmem => hc (by simpa using hmem)
        refine ⟨?_, ?_, ?_⟩
        · intro x hx
          exact ih1 x (List.mem_append_left _ hx)
        · intro y hy
          rcases List.mem_cons.mp hy with hy | hy
          · subst hy
            exact ⟨hrid, ih1 r.id (by simp)⟩
          · obtain ⟨hn, hm⟩ := ih2 y hy
            exact ⟨fun hmem => hn (List.mem_append_left _ hmem), hm⟩
        · simp only [List.map_cons]
          refine List.nodup_cons.mpr ⟨?_, ih3⟩
          intro hmem
          obtain ⟨y, hy, hyid⟩ := List.mem_map.mp hmem
          obtain ⟨hn, _⟩ := ih2 y hy
          exact hn (by simp [hyid])
      · rw [hunfold, if_neg hc, if_neg hp]
        exact ih ids

theorem scanRun_invariant (pred : RequestDeviceInfo → Bool) :
    ∀ (cycles : List (List ScanResult)) (ids : List String),
      (∀ x ∈ ids, x ∈ (scanRun pred ids cycles).1) ∧
      (∀ y ∈ (scanRun pred ids cycles).2,
        y.1 ∉ ids ∧ y.1 ∈ (scanRun pred ids cycles).1) ∧
      ((scanRun pred ids cycles).2.map Prod.fst).Nodup := by
  intro cycles
  induction cycles with
  | nil =>
    intro ids
    refine ⟨fun x hx => ?_, fun y hy => ?_, ?_⟩ <;> simp_all [scanRun]
  | cons c rest ih =>
    intro ids
    have hred : scanRun pred ids (c :: rest)
        = ((scanRun pred (scanCycle pred ids c).1 rest).1,
           (scanCycle pred ids c).2 ++ (scanRun pred (scanCycle pred ids c).1 rest).2) := by
      simp [scanRun]
    obtain ⟨hc1, hc2, hc3⟩ := scanCycle_invariant pred c ids
    obtain ⟨ih1, ih2, ih3⟩ := ih (scanCycle pred ids c).1
    rw [hred]
    refine ⟨?_, ?_, ?_⟩
    · intro x hx
      exact ih1 x (hc1 x hx)
    · intro y hy
      rcases List.mem_append.mp hy with hy | hy
      · obtain ⟨hn, hm⟩ := hc2 y hy
        exact ⟨hn, ih1 y.1 hm⟩
      · obtain ⟨hn, hm⟩ := ih2 y hy
        exact ⟨fun hmem => hn (hc1 y.1 hmem), hm⟩
    · rw [List.map_append]
      refine List.Nodup.append hc3 ih3 ?_
      intro a ha hb
      obtain ⟨y, hy, hyid⟩ := List.mem_map.mp ha
      obtain ⟨z, hz, hzid⟩ := List.mem_map.mp hb
      obtain ⟨_, hym⟩ := hc2 y hy
      obtain ⟨hzn, _⟩ := ih2 z hz
      exact hzn (by rw [hzid, ← hyid]; exact hym)

/-- C7: across a whole run of the continuous scan loop — any filter predicate,
any sequence of scan cycles, starting from the empty `ids` list — no two
yielded devices carry the same scan-result identifier (the `id` the source
records in its `ids` array before yielding), and every yielded identifier is
recorded in the final `ids` list, so a later scan result carrying it is
skipped by every subsequent cycle. -/
theorem scan_never_yields_duplicate_ids (pred : RequestDeviceInfo → Bool)
    (cycles : List (List ScanResult)) :
    ((scanRun pred [] cycles).2.map Prod.fst).Nodup ∧
    (∀ y ∈ (scanRun pred [] cycles).2, y.1 ∈ (scanRun pred [] cycles).1) := by
  obtain ⟨_, h2, h3⟩ := scanRun_invariant pred cycles []
  exact ⟨h3, fun y hy => (h2 y hy).2⟩

theorem mapGet_isSome_of_mapHas (m : MDataMap) (k : Nat)
    (h : mapHas m k = true) : ∃ v, mapGet m k = some v := by
  induction m with
  | nil => simp [mapHas] at h
  | cons e rest ih =>
    by_cases he : (e.1 == k) = true
    · exact ⟨e.2, by simp [mapGet, List.find?, he]⟩
    · have h2 : mapHas rest k = true := by
        simp only [mapHas, List.any_cons, Bool.or_eq_true] at h
        rcases h with h | h
        · exact absurd h he
        · exact h
      obtain ⟨v, hv⟩ := ih h2
      refine ⟨v, ?_⟩
      simp only [mapGet, List.find?] at hv ⊢
      rw [Bool.of_not_eq_true he] at *
      simpa using hv

theorem beqComm (a b : Nat) : (a == b) = (b == a) := by
  by_cases h : a = b
  · simp [h]
  · simp [h, Ne.symm h]

theorem prefixByteLoop_in_bounds (view : Bytes) :
    ∀ (pfx : Bytes) (i : Nat), i + pfx.length ≤ view.length →
      prefixByteLoop view i pfx = some (pfx.isPrefixOf (view.drop i)) := by
  intro pfx
  induction pfx with
  | nil => intro i h; simp [prefixByteLoop, List.isPrefixOf]
  | cons b rest ih =>
    intro i h
    have hi : i < view.length := by
      simp only [List.length_cons] at h
      omega
    have hget : getUint8 view i = some (view.get ⟨i, hi⟩) := by
      simp [getUint8, List.get?_eq_get hi]
    have hdrop : view.drop i = view.get ⟨i, hi⟩ :: view.drop (i + 1) := by
      rw [List.drop_eq_getElem_cons hi]
      rfl
    have hih : prefixByteLoop view (i + 1) rest
        = some (rest.isPrefixOf (view.drop (i + 1))) := by
      apply ih
      simp only [List.length_cons] at h
      omega
    simp only [prefixByteLoop, hget, hih, hdrop, List.isPrefixOf]
    rw [beqComm]

/-- C9: the claim is refuted by the code at a concrete input: for the filter
entry with company identifier 5 and data prefix [1, 2] against a candidate
whose data for company 5 is the single byte [1], the claim's byte-exact prefix
predicate says "no match", but `checkManufacturerData` performs the
out-of-range `DataView.getUint8(1)` and throws a `RangeError` (modelled
`none`) instead of returning a boolean. -/
theorem checkManufacturerData_range_error_cex :
    checkManufacturerData [(5, [1])] [⟨5, some [1, 2]⟩] = none ∧
    specManufacturerMatch [(5, [1])] [⟨5, some [1, 2]⟩] = false := by
  decide

/-- C9 (amended): whenever every given data prefix whose company identifier
resolves in the candidate's manufacturer-data map is no longer than the
resolved data, `checkManufacturerData` returns exactly the claim's predicate:
some entry's company identifier is present and, when its data prefix is given,
the prefix is byte-for-byte a prefix of the candidate's data for that company;
when a prefix extends past the end of the data, the code instead throws a
`RangeError` from the out-of-range read. -/
theorem checkManufacturerData_eq_spec_of_in_bounds (map : MDataMap)
    (filters : List ManufacturerDataFilter)
    (hb : prefixesInBounds map filters = true) :
    checkManufacturerData map filters
      = some (specManufacturerMatch map filters) := by
  induction filters with
  | nil => simp [checkManufacturerData, specManufacturerMatch]
  | cons f rest ih =>
    simp only [prefixesInBounds, List.all_cons, Bool.and_eq_true] at hb
    obtain ⟨hf, hrest⟩ := hb
    have ih2 := ih hrest
    by_cases hhas : mapHas map f.companyIdentifier = true
    · cases hpfx : f.dataPfx with
      | none => simp [checkManufacturerData, specManufacturerMatch, hhas, hpfx]
      | some pfx =>
        obtain ⟨view, hget⟩ := mapGet_isSome_of_mapHas map f.companyIdentifier hhas
        have hlen : pfx.length ≤ view.length := by
          rw [hpfx, hget] at hf
          exact Nat.le_of_ble_eq_true (by simpa using hf)
        have hloop : prefixByteLoop view 0 pfx = some (pfx.isPrefixOf view) := by
          have := prefixByteLoop_in_bounds view pfx 0 (by simpa using hlen)
          simpa using this
        cases hpre : pfx.isPrefixOf view with
        | false =>
          rw [hpre] at hloop
          simp [checkManufacturerData, specManufacturerMatch, hhas, hpfx, hget,
                hloop, hpre, ih2, specManufacturerMatch]
        | true =>
          rw [hpre] at hloop
          simp [checkManufacturerData, specManufacturerMatch, hhas, hpfx, hget,
                hloop, hpre]
    · have hhasf : mapHas map f.companyIdentifier = false :=
        Bool.of_not_eq_true hhas
      simp [checkManufacturerData, specManufacturerMatch, hhasf, ih2]

/-- C9 amended witness: the spec's own example — company 0x004C with prefix
[0x02, 0x15] against data [0x02, 0x15, 0x99] — is in bounds and matches. -/
theorem checkManufacturerData_eq_spec_witness :
    prefixesInBounds [(76, [2, 21, 153])] [⟨76, some [2, 21]⟩] = true ∧
    checkManufacturerData [(76, [2, 21, 153])] [⟨76, some [2, 21]⟩]
      = some (specManufacturerMatch [(76, [2, 21, 153])] [⟨76, some [2, 21]⟩]) :=
  ⟨by decide,
   checkManufacturerData_eq_spec_of_in_bounds [(76, [2, 21, 153])]
     [⟨76, some [2, 21]⟩] (by decide)⟩

end WebBluetooth
